import Mathlib

/-!
Verification of the mongoengine object-document-mapping layer.

The repository ships the connection/SON-manipulator module
(`src/mongoengine/connection.py`) together with the field test-suite
(`src/tests/fields.py`).  The field/document implementation itself is not part
of the shipped sources, so the field type system, the document validation
engine, the save lifecycle and the reference resolver are modelled from the
specification, with the in-repository test-suite pinning the concrete
behaviour.  The connection module and the Django SON transformer are embedded
directly from `src/mongoengine/connection.py`.
-/

namespace Mongoengine

/-- The universe of field values held by a document instance.  Python values
are modelled by a closed inductive: strings, ints, floats (exact decimal
literals, represented as rationals since only order comparisons occur),
decimals, booleans, lists (tuples are folded into lists), sets, dicts, nested
document instances (class name, optional primary key, field map) and stored
reference records (collection, class discriminator, primary key). -/
inductive Value where
  | vnull
  | vbool (b : Bool)
  | vint (n : Int)
  | vfloat (q : Rat)
  | vdec (q : Rat)
  | vstr (s : String)
  | vlist (xs : List Value)
  | vset (xs : List Value)
  | vdict (es : List (String × Value))
  | vdoc (cls : String) (pk : Option Nat) (fields : List (String × Value))
  | vgenref (coll : String) (cls : String) (pk : Nat)

/-- Field kinds with their declared constraints, as exposed by the schema
declaration surface (`min_value`/`max_value`, `max_length`, element fields,
key/value fields, target class names). -/
inductive Field where
  | stringF (maxLength : Option Nat)
  | intF (minv maxv : Option Int)
  | floatF (minv maxv : Option Rat)
  | decimalF (minv maxv : Option Rat)
  | listF (elem : Field)
  | setF (elem : Field)
  | dictF
  | mapF (keyField valField : Field)
  | langF
  | embedF (cls : String)
  | refF (cls : String)
  | genrefF
  deriving DecidableEq, Repr

/-- Inclusive range check against optional declared bounds, integer kinds. -/
def intInRange (lo hi : Option Int) (n : Int) : Bool :=
  (match lo with | none => true | some a => decide (a ≤ n)) &&
  (match hi with | none => true | some b => decide (n ≤ b))

/-- Inclusive range check against optional declared bounds, rational kinds. -/
def ratInRange (lo hi : Option Rat) (q : Rat) : Bool :=
  (match lo with | none => true | some a => decide (a ≤ q)) &&
  (match hi with | none => true | some b => decide (q ≤ b))

/-- Digit-string value: `some n` when the character list is a non-empty run
of decimal digits. -/
def digitsVal (cs : List Char) : Option Nat :=
  if cs.isEmpty then none
  else if cs.all Char.isDigit then
    some (cs.foldl (fun a c => a * 10 + (c.toNat - 48)) 0)
  else none

/-- Modelled from the spec: decimal fields "accept numeric strings and convert
to exact decimal".  Parses an optional leading minus sign, an integer digit
run and an optional fractional digit run into an exact rational. -/
def parseDec (cs : List Char) : Option Rat :=
  let body := match cs with
    | '-' :: t => t
    | _ => cs
  let neg : Bool := match cs with
    | '-' :: _ => true
    | _ => false
  let ip := body.takeWhile (fun c => !(c == '.'))
  let rest := body.dropWhile (fun c => !(c == '.'))
  let q : Option Rat :=
    match rest with
    | [] => (digitsVal ip).map (fun n => (n : Rat))
    | _ :: fp =>
      match digitsVal ip, digitsVal fp with
      | some i, some f =>
        some (((i * 10 ^ fp.length + f : Nat) : Rat) / ((10 : Rat) ^ fp.length))
      | _, _ => none
  q.map (fun r => if neg then -r else r)

/-- Conversion applied by the decimal field before range checking: decimals
pass through, ints and floats convert exactly, strings are parsed; any other
value is a coercion failure. -/
def toDec : Value → Option Rat
  | .vdec q => some q
  | .vint n => some (n : Rat)
  | .vfloat q => some q
  | .vstr s => parseDec s.toList
  | _ => none

/-- A mapping key is reserved when its first character is a dollar sign or it
contains a dot anywhere; such keys clash with the wire format. -/
def reservedKey (k : String) : Bool :=
  (match k.toList with
   | c :: _ => c == '$'
   | [] => false) || k.toList.contains '.'

/-- Split a character list at every hyphen (separator-preserving: `n` hyphens
give `n + 1` chunks, so a doubled hyphen yields an empty chunk). -/
def splitDash : List Char → List (List Char)
  | [] => [[]]
  | c :: rest =>
    let r := splitDash rest
    if c == '-' then [] :: r
    else
      match r with
      | h :: t => (c :: h) :: t
      | [] => [[c]]

/-- BCP-47 primary subtag: two to eight letters. -/
def primarySubtagOk (cs : List Char) : Bool :=
  decide (2 ≤ cs.length) && decide (cs.length ≤ 8) && cs.all Char.isAlpha

/-- BCP-47 follow-on subtag (region, script, variant, extension or singleton):
one to eight alphanumeric characters. -/
def subtagOk (cs : List Char) : Bool :=
  decide (1 ≤ cs.length) && decide (cs.length ≤ 8) &&
    cs.all (fun c => c.isAlpha || c.isDigit)

/-- Modelled from the spec: "language-code validation follows the BCP-47
grammar (primary subtag of 2-8 letters, optional region/script/variant/
extension subtags separated by hyphens" rejecting "malformed hyphenation such
as a doubled separator". -/
def langOk (s : String) : Bool :=
  match splitDash s.toList with
  | first :: rest => primarySubtagOk first && rest.all subtagOk
  | [] => false

/-- Modelled from the spec: the per-field validator (`Field.validate`), whose
implementation is absent from the shipped sources.  Kind by kind, following
spec section 4.1 with the behaviour pinned by `src/tests/fields.py`:
string kinds check `max_length`; int/float kinds accept exactly their own
numeric kind within the declared inclusive range (numeric strings are
rejected); the decimal kind converts (strings included) before range
checking; list/set kinds accept non-string iterables whose every element
passes the element field, and reject bare strings; `DictField` rejects
reserved keys; `MapField` checks each key and value against its declared key
and value fields and imposes no reserved-key restriction (pinned by
`test_map_validation`); language codes follow BCP-47; embedded-document
fields require an instance of the declared class; reference fields require
an instance of the declared class that has a primary key (already persisted);
generic references require any persisted document instance. -/
def validateField : Field → Value → Bool
  | .stringF ml, .vstr s =>
    (match ml with | none => true | some l => decide (s.length ≤ l))
  | .intF lo hi, .vint n => intInRange lo hi n
  | .floatF lo hi, .vfloat q => ratInRange lo hi q
  | .decimalF lo hi, v =>
    (match toDec v with
     | some q => ratInRange lo hi q
     | none => false)
  | .listF e, .vlist xs => xs.all (fun x => validateField e x)
  | .listF e, .vset xs => xs.all (fun x => validateField e x)
  | .setF e, .vlist xs => xs.all (fun x => validateField e x)
  | .setF e, .vset xs => xs.all (fun x => validateField e x)
  | .dictF, .vdict es => es.all (fun p => !reservedKey p.1)
  | .mapF kf vf, .vdict es =>
    es.all (fun p => validateField kf (.vstr p.1) && validateField vf p.2)
  | .langF, .vstr s => langOk s
  | .embedF cls, .vdoc c _ _ => c == cls
  | .refF cls, .vdoc c pk _ => c == cls && pk.isSome
  | .genrefF, .vdoc _ pk _ => pk.isSome
  | _, _ => false

/-- One schema slot: the declared field together with its `required` flag. -/
structure FieldSpec where
  field : Field
  required : Bool := false
  deriving DecidableEq, Repr

/-- A document schema: an ordered mapping of field name to field spec. -/
abbrev Schema := List (String × FieldSpec)

/-- First-match association lookup over a document's field map. -/
def findVal : List (String × Value) → String → Option Value
  | [], _ => none
  | (k, v) :: rest, n => if k == n then some v else findVal rest n

/-- Replace the value bound to `n` (first occurrence), appending when the
name is unbound. -/
def setVal : List (String × Value) → String → Value → List (String × Value)
  | [], n, v => [(n, v)]
  | (k, w) :: rest, n, v =>
    if k == n then (n, v) :: rest else (k, w) :: setVal rest n v

/-- A live document instance: class name, optional primary key (absent until
the first successful save) and the field-name-to-value map. -/
structure DocInst where
  cls : String
  pk : Option Nat
  fields : List (String × Value)

/-- Modelled from the spec: the document validation engine (absent from the
shipped sources) "walks the schema, invoking each Field's validator" and
raises "an aggregate ValidationError enumerating every failing field ...,
not just the first".  A slot whose value is absent or None fails exactly when
the field is required; a present value fails when its field validator rejects
it.  Returns the names of all failing fields, in schema order. -/
def collectErrors (schema : Schema) (fields : List (String × Value)) : List String :=
  schema.filterMap fun e =>
    match findVal fields e.1 with
    | none => if e.2.required then some e.1 else none
    | some .vnull => if e.2.required then some e.1 else none
    | some v => if validateField e.2.field v then none else some e.1

/-- Modelled from the spec: `validate()` as a state-passing operation on the
instance.  It computes the aggregate of failing fields and hands the instance
back; the spec requires it to be "side-effect-free on the instance (it must
not mutate field values)", which the model realises by returning the instance
unchanged. -/
def validateRun (schema : Schema) (d : DocInst) : List String × DocInst :=
  (collectErrors schema d.fields, d)

/-- One stored record in the external document store. -/
structure StoreRec where
  coll : String
  pk : Nat
  fields : List (String × Value)

/-- The external document store: stored records (newest first; lookups take
the first match, so prepending acts as an upsert) plus the store's next
primary key to assign. -/
structure Store where
  recs : List StoreRec
  nextPk : Nat

/-- Collection identifier of a document class.  Each top-level document
schema maps to one store collection; the model names the collection after
the class. -/
def collectionOf (cls : String) : String := cls

/-- Fetch the record stored in collection `c` under primary key `p`. -/
def fetchRec (st : Store) (c : String) (p : Nat) : Option StoreRec :=
  st.recs.find? fun r => r.coll == c && r.pk == p

/-- Single-document upsert: the new record shadows any older record with the
same collection and key, since `fetchRec` takes the first match. -/
def upsertRec (st : Store) (r : StoreRec) : Store :=
  { st with recs := r :: st.recs }

mutual

/-- Modelled from the spec: serialization of one field value for persistence.
A persisted document instance is replaced by its reference record triple
"(target collection identifier, target primary-key value, optional
target-type discriminator)"; embedded (key-less) documents are stored as
nested inline structures; containers serialize element-wise. -/
def serializeValue : Value → Value
  | .vdoc cls (some p) _ => .vgenref (collectionOf cls) cls p
  | .vdoc cls none fs => .vdoc cls none (serializeFields fs)
  | .vlist xs => .vlist (serializeItems xs)
  | .vset xs => .vset (serializeItems xs)
  | .vdict es => .vdict (serializeFields es)
  | v => v

/-- Element-wise serialization of a field map. -/
def serializeFields : List (String × Value) → List (String × Value)
  | [] => []
  | (k, v) :: t => (k, serializeValue v) :: serializeFields t

/-- Element-wise serialization of container items. -/
def serializeItems : List Value → List Value
  | [] => []
  | x :: t => serializeValue x :: serializeItems t

end

/-- Outcome of `save`: success carries the updated instance and store;
failure carries the aggregate validation errors and the untouched store. -/
inductive SaveResult where
  | ok (d : DocInst) (st : Store)
  | fail (errs : List String) (st : Store)

/-- Modelled from the spec: `save()` (absent from the shipped sources)
"calls validate() first and fails atomically (no partial write) if invalid;
on success it delegates serialization ... to the external store's
single-document upsert and adopts the primary key the store confirms". -/
def save (schema : Schema) (d : DocInst) (st : Store) : SaveResult :=
  let errs := collectErrors schema d.fields
  if errs.isEmpty then
    let pst : Nat × Store :=
      match d.pk with
      | some p => (p, st)
      | none => (st.nextPk, { st with nextPk := st.nextPk + 1 })
    let r : StoreRec := ⟨collectionOf d.cls, pst.1, serializeFields d.fields⟩
    SaveResult.ok { d with pk := some pst.1 } (upsertRec pst.2 r)
  else SaveResult.fail errs st

/-- The schema registry backing polymorphic decode: class name to schema. -/
abbrev Registry := List (String × Schema)

/-- Registry lookup by class discriminator. -/
def findSchema : Registry → String → Option Schema
  | [], _ => none
  | (c, s) :: rest, n => if c == n then some s else findSchema rest n

/-- Modelled from the spec: dereferencing a stored generic reference record.
"decode dispatches on the discriminator to the registered schema, constructs
an instance, and populates it from the fetched raw record"; an unregistered
discriminator or a missing target record is a dereference failure. -/
def deref (reg : Registry) (st : Store) : Value → Option DocInst
  | .vgenref coll cls p =>
    match findSchema reg cls with
    | some _ => (fetchRec st coll p).map fun r => ⟨cls, some p, r.fields⟩
    | none => none
  | _ => none

/-! ## Connection module (`src/mongoengine/connection.py`) -/

/-- The `_connection_settings` dict: host and port. -/
structure ConnSettings where
  host : String
  port : Nat
  deriving DecidableEq, Repr

/-- A live `pymongo.Connection` object.  The `nonce` tracks object identity:
each constructor call brews a distinct nonce, so two connections are the same
Python object exactly when their nonces agree. -/
structure Conn where
  settings : ConnSettings
  nonce : Nat
  deriving DecidableEq, Repr

/-- A database handle (`_connection[_db_name]`), carrying its authentication
flag and the number of SON manipulators added to it. -/
structure MDb where
  name : String
  connNonce : Nat
  authenticated : Bool
  manipulators : Nat
  deriving DecidableEq, Repr

/-- The module-level globals of `connection.py`: `_connection_settings`,
`_connection`, `_db_name`, `_db_username`, `_db_password`, `_db`; plus the
fresh-nonce supply, whether the external driver accepts connections (the
`except` arm of the `Connection(...)` call), and whether the Django import
succeeded (making `TransformDjango` non-None). -/
structure ConnState where
  settings : ConnSettings
  connection : Option Conn
  dbName : Option String
  dbUsername : Option String
  dbPassword : Option String
  db : Option MDb
  nextNonce : Nat
  driverUp : Bool
  djangoAvail : Bool
  deriving DecidableEq, Repr

/-- The two `ConnectionError` messages raised by `connection.py`. -/
inductive ConnErr where
  | cannotConnect
  | notConnected
  deriving DecidableEq, Repr

/-- `_get_connection()`: return the cached connection if one exists,
otherwise construct one from the current settings, caching it; a driver
failure is re-raised as `ConnectionError('Cannot connect to the
database')`. -/
def getConnection (s : ConnState) : Except ConnErr (Conn × ConnState) :=
  match s.connection with
  | some c => .ok (c, s)
  | none =>
    if s.driverUp then
      let c : Conn := ⟨s.settings, s.nextNonce⟩
      .ok (c, { s with connection := some c, nextNonce := s.nextNonce + 1 })
    else .error .cannotConnect

/-- Python truthiness of an optional string (None and the empty string are
falsy), used for the `if _db_username and _db_password` guard. -/
def strTruthy : Option String → Bool
  | none => false
  | some s => !s.isEmpty

/-- `_get_db()`: connect if not already connected; if no database handle is
cached, raise `ConnectionError('Not connected to the database')` when no
database name was ever configured, else take the handle from the connection
and authenticate when both username and password are truthy; finally, when
Django is importable, add a `TransformDjango` SON manipulator to the (cached)
handle on every call. -/
def getDb (s : ConnState) : Except ConnErr (MDb × ConnState) :=
  match getConnection s with
  | .error e => .error e
  | .ok (c, s1) =>
    match s1.db with
    | some d =>
      let d1 := if s1.djangoAvail then { d with manipulators := d.manipulators + 1 } else d
      .ok (d1, { s1 with db := some d1 })
    | none =>
      match s1.dbName with
      | none => .error .notConnected
      | some nm =>
        let auth := strTruthy s1.dbUsername && strTruthy s1.dbPassword
        let d0 : MDb := ⟨nm, c.nonce, auth, 0⟩
        let d1 := if s1.djangoAvail then { d0 with manipulators := 1 } else d0
        .ok (d1, { s1 with db := some d1 })

/-- `connect(db, username, password, **kwargs)`: update the settings from the
keyword overrides, record the database name and credentials, then delegate to
`_get_db()`. -/
def connect (db : String) (username password : Option String)
    (hostOverride : Option String) (portOverride : Option Nat)
    (s : ConnState) : Except ConnErr (MDb × ConnState) :=
  let st :=
    { s with
      settings :=
        { host := hostOverride.getD s.settings.host
          port := portOverride.getD s.settings.port }
      dbName := some db
      dbUsername := username
      dbPassword := password }
  getDb st

/-! ## Django SON transformer (`src/mongoengine/connection.py`, top block) -/

/-- A Django model instance: application label, model (module) name and the
optional primary key (`None` until saved). -/
structure DjModel where
  app : String
  modelCls : String
  pk : Option Nat
  deriving DecidableEq, Repr

/-- A SON tree handed to the manipulator: Django model instances, dicts,
iterables (py2 lists--strings do not expose an iteration capability there),
string scalars, numeric scalars and None. -/
inductive Son where
  | dmodel (m : DjModel)
  | dict (es : List (String × Son))
  | arr (xs : List Son)
  | sstr (s : String)
  | snat (n : Nat)
  | snull

/-- The Django-side store of saved model instances plus its autofield
counter.  Models the external framework's persistence visible through
`Model.save` and `ContentType...get_object_for_this_type`. -/
structure DjState where
  store : List DjModel
  nextPk : Nat

/-- Python truthiness of the `pk` attribute (`if not model.pk`): `None` and
`0` are falsy. -/
def pkFalsy : Option Nat → Bool
  | none => true
  | some n => n == 0

/-- `Model.save()` of the external framework: assign the next autofield
value when the model has no primary key, and record the instance in the
store. -/
def djangoSave (st : DjState) (m : DjModel) : DjState × DjModel :=
  match m.pk with
  | some _ => ({ st with store := m :: st.store }, m)
  | none =>
    let m1 := { m with pk := some st.nextPk }
    (⟨m1 :: st.store, st.nextPk + 1⟩, m1)

/-- The wire record built by `encode_django`:
`{'app': ..., 'model': ..., 'pk': ..., '_type': 'django'}`. -/
def djRecord (m : DjModel) : Son :=
  .dict [("app", .sstr m.app), ("model", .sstr m.modelCls),
         ("pk", match m.pk with | some p => .snat p | none => .snull),
         ("_type", .sstr "django")]

/-- `encode_django(model)`: save the model first when its `pk` is falsy,
then emit the tagged app/model/pk record. -/
def encodeDjango (st : DjState) (m : DjModel) : DjState × Son :=
  let sm := if pkFalsy m.pk then djangoSave st m else (st, m)
  (sm.1, djRecord sm.2)

/-- First-match association lookup in a SON dict (`data['app']` etc.). -/
def findSon : List (String × Son) → String → Option Son
  | [], _ => none
  | (k, v) :: rest, n => if k == n then some v else findSon rest n

/-- The `ContentType` fetch backing `decode_django`: first stored model with
the given app label, model name and primary key. -/
def findDj (store : List DjModel) (a c : String) (p : Nat) : Option DjModel :=
  store.find? fun m => m.app == a && m.modelCls == c && m.pk == some p

/-- `decode_django(data)`: read `data['app']`, `data['model']`, `data['pk']`
and fetch the model instance of that content type by primary key; a missing
key or an absent instance raises (modelled as `none`). -/
def decodeDjango (st : DjState) (es : List (String × Son)) : Option DjModel :=
  match findSon es "app", findSon es "model", findSon es "pk" with
  | some (.sstr a), some (.sstr c), some (.snat p) => findDj st.store a c p
  | _, _, _ => none

mutual

/-- `TransformDjango.transform_incoming(son, collection)`: dict values that
are Django models are encoded, sub-dicts are recursed into, iterable values
are mapped element-wise; an iterable `son` is mapped element-wise; a bare
model `son` reaches `son = encode_django(value)` whose local `value` is
unbound in that frame, raising `NameError` (modelled as `none`); anything
else passes through. -/
def transformIncoming (st : DjState) : Son → Option (DjState × Son)
  | .dict es => (tiEntries st es).map fun p => (p.1, .dict p.2)
  | .arr xs => (tiItems st xs).map fun p => (p.1, .arr p.2)
  | .dmodel _ => none
  | v => some (st, v)

/-- The `for (key, value) in son.items()` loop of `transform_incoming`,
threading the Django store through the per-value transformation. -/
def tiEntries (st : DjState) : List (String × Son) → Option (DjState × List (String × Son))
  | [] => some (st, [])
  | (k, v) :: rest =>
    match tiValue st v with
    | none => none
    | some (st1, v1) =>
      (tiEntries st1 rest).map fun p => (p.1, (k, v1) :: p.2)

/-- The loop body of `transform_incoming`: a model value is encoded, a dict
value is recursed into, an iterable value is mapped element-wise, any other
value is left unchanged. -/
def tiValue (st : DjState) : Son → Option (DjState × Son)
  | .dmodel m => some (encodeDjango st m)
  | .dict es => (tiEntries st es).map fun p => (p.1, .dict p.2)
  | .arr xs => (tiItems st xs).map fun p => (p.1, .arr p.2)
  | v => some (st, v)

/-- The list comprehension `[self.transform_incoming(item, collection) for
item in value]`, threading the Django store left to right. -/
def tiItems (st : DjState) : List Son → Option (DjState × List Son)
  | [] => some (st, [])
  | x :: rest =>
    match transformIncoming st x with
    | none => none
    | some (st1, x1) =>
      (tiItems st1 rest).map fun p => (p.1, x1 :: p.2)

end

mutual

/-- `TransformDjango.transform_outgoing(son, collection)`: dict values that
are dicts tagged `'_type': 'django'` are decoded (untagged sub-dicts are left
as they are--the source does not recurse into them), iterable values are
mapped element-wise, scalar values are passed back through the transformer;
an iterable `son` is mapped element-wise; a bare model `son` reaches
`son = decode_django(value)` whose local `value` is unbound, raising
`NameError` (modelled as `none`); anything else passes through. -/
def transformOutgoing (st : DjState) : Son → Option Son
  | .dict es => (toEntries st es).map fun l => Son.dict l
  | .arr xs => (toItems st xs).map fun l => Son.arr l
  | .dmodel _ => none
  | v => some v

/-- The `for (key, value) in son.items()` loop of `transform_outgoing`. -/
def toEntries (st : DjState) : List (String × Son) → Option (List (String × Son))
  | [] => some []
  | (k, v) :: rest =>
    match toValue st v with
    | none => none
    | some v1 => (toEntries st rest).map fun l => (k, v1) :: l

/-- The loop body of `transform_outgoing`: a django-tagged dict value is
decoded (a decode failure propagates), a plain dict value is left unchanged,
an iterable value is mapped element-wise, and any other value goes through
`transform_outgoing` (models crash on the unbound `value`, scalars come back
unchanged). -/
def toValue (st : DjState) : Son → Option Son
  | .dict es =>
    (match findSon es "_type" with
     | some (.sstr t) =>
       if t == "django" then (decodeDjango st es).map Son.dmodel
       else some (.dict es)
     | _ => some (.dict es))
  | .arr xs => (toItems st xs).map fun l => Son.arr l
  | .dmodel _ => none
  | v => some v

/-- The list comprehension of `transform_outgoing`. -/
def toItems (st : DjState) : List Son → Option (List Son)
  | [] => some []
  | x :: rest =>
    match transformOutgoing st x with
    | none => none
    | some x1 => (toItems st rest).map fun l => x1 :: l

end

/-! ## Concrete instances mirroring the scenarios of `src/tests/fields.py` -/

/-- Field map of the `User(name='Test User')` instance. -/
def exUserData : List (String × Value) := [("name", Value.vstr "Test User")]

/-- Schema of `BlogPost` from `test_reference_validation`: a string content
field and a reference-typed author field targeting `User`. -/
def exPostSchema : Schema :=
  [("content", ⟨.stringF none, false⟩), ("author", ⟨.refF "User", false⟩)]

/-- `post1` with its author set to a never-saved `User` instance. -/
def exPostU : DocInst :=
  ⟨"BlogPost", none,
   [("content", .vstr "Chips and gravy taste good."),
    ("author", .vdoc "User" none exUserData)]⟩

/-- `post1` after the author has been saved (primary key 0 assigned). -/
def exPostS : DocInst :=
  { exPostU with
    fields := setVal exPostU.fields "author" (.vdoc "User" (some 0) exUserData) }

/-- The empty store. -/
def exStore0 : Store := ⟨[], 0⟩

/-- Schemas of `Post`, `Link` and `Bookmark` from `test_generic_reference`. -/
def exPostSchema2 : Schema := [("title", ⟨.stringF none, false⟩)]

/-- Schema of `Link`. -/
def exLinkSchema : Schema := [("title", ⟨.stringF none, false⟩)]

/-- Schema of `Bookmark`, holding one generic reference field. -/
def exBmSchema : Schema := [("bookmark_object", ⟨.genrefF, false⟩)]

/-- The registry of document classes from `test_generic_reference`. -/
def exReg : Registry :=
  [("Post", exPostSchema2), ("Link", exLinkSchema), ("Bookmark", exBmSchema)]

/-- The store after `post_1.save()` (key 0) and `link_1.save()` (key 1). -/
def exStPL : Store :=
  ⟨[⟨"Link", 1, [("title", .vstr "Pitchfork")]⟩,
    ⟨"Post", 0, [("title", .vstr "Reunion")]⟩], 2⟩

/-- `Bookmark(bookmark_object=post_1)` before its first save. -/
def exBm : DocInst :=
  ⟨"Bookmark", none,
   [("bookmark_object", .vdoc "Post" (some 0) [("title", .vstr "Reunion")])]⟩

/-- The saved bookmark: primary key 2 adopted from the store. -/
def exBm1 : DocInst := { exBm with pk := some 2 }

/-- The store after `bm.save()`. -/
def exStPLB : Store :=
  ⟨⟨"Bookmark", 2, [("bookmark_object", .vgenref "Post" "Post" 0)]⟩ :: exStPL.recs, 3⟩

/-- The bookmark re-pointed at `link_1` (`bm.bookmark_object = link_1`). -/
def exBm2 : DocInst :=
  ⟨"Bookmark", some 2,
   [("bookmark_object", .vdoc "Link" (some 1) [("title", .vstr "Pitchfork")])]⟩

/-- The store after the second `bm.save()`. -/
def exStPLB2 : Store :=
  ⟨⟨"Bookmark", 2, [("bookmark_object", .vgenref "Link" "Link" 1)]⟩ :: exStPLB.recs, 3⟩

/-- The initial module state of `connection.py`: default settings, nothing
cached, no database name configured, a reachable driver. -/
def exConnState0 : ConnState :=
  ⟨⟨"localhost", 27017⟩, none, none, none, none, none, 0, true, true⟩

/-- The connection constructed by the first `_get_connection()` call. -/
def exConn : Conn := ⟨⟨"localhost", 27017⟩, 0⟩

/-- The module state after the first `_get_connection()` call. -/
def exConnState1 : ConnState :=
  { exConnState0 with connection := some exConn, nextNonce := 1 }

/-- A Django store holding one saved author model (primary key 1). -/
def exDjState : DjState := ⟨[⟨"blog", "author", some 1⟩], 2⟩

/-- The saved author model itself. -/
def exDjModel : DjModel := ⟨"blog", "author", some 1⟩

/-! ## Helper lemmas -/

/-- A schema slot bound to a present, non-null value that its field validator
rejects contributes its name to the aggregate error list. -/
theorem mem_collectErrors_of_invalid (schema : Schema)
    (fields : List (String × Value)) (n : String) (fsp : FieldSpec) (v : Value)
    (hmem : (n, fsp) ∈ schema) (hfind : findVal fields n = some v)
    (hnn : v ≠ .vnull) (hbad : validateField fsp.field v = false) :
    n ∈ collectErrors schema fields := by
  unfold collectErrors
  rw [List.mem_filterMap]
  refine ⟨(n, fsp), hmem, ?_⟩
  simp only [hfind]
  cases v <;> simp_all

/-- Serialization commutes with field lookup. -/
theorem findVal_serializeFields (fs : List (String × Value)) (n : String) :
    findVal (serializeFields fs) n = (findVal fs n).map serializeValue := by
  induction fs with
  | nil => rfl
  | cons h t ih =>
    obtain ⟨k, v⟩ := h
    cases hkn : (k == n) <;> simp [serializeFields, findVal, hkn, ih]

/-! ## Claims -/

/-- Claim C1, counterexample: the claim states that every mapping-kind field,
`MapField` included, fails validation on a key whose first character is a
dollar sign; but a `MapField` over string keys and values validates
`{'$title': 'test'}` successfully (pinned by `test_map_validation`,
`src/tests/fields.py` lines 319-320). -/
theorem claim_c1_counterexample :
    validateField (.mapF (.stringF none) (.stringF none))
      (.vdict [("$title", .vstr "test")]) = true := by decide

/-- Claim C1, amended: only `DictField` enforces the reserved-key
restriction: it validates a dict exactly when no key starts with a dollar
sign or contains a dot (and rejects non-dict values); `MapField` imposes no
key-character restriction, accepting such keys whenever the keys and values
pass its declared key and value fields. -/
theorem claim_c1_amended_mapping_keys :
    (∀ es, validateField .dictF (.vdict es) = es.all (fun p => !reservedKey p.1)) ∧
    validateField .dictF (.vstr "my post") = false ∧
    validateField .dictF (.vdict [("$title", .vstr "test")]) = false ∧
    validateField .dictF (.vdict [("the.title", .vstr "test")]) = false ∧
    validateField .dictF (.vdict [("title", .vstr "test")]) = true ∧
    validateField (.mapF (.stringF none) (.stringF none)) (.vstr "my post") = false ∧
    validateField (.mapF (.stringF none) (.stringF none))
      (.vdict [("$title", .vstr "test")]) = true ∧
    validateField (.mapF (.stringF none) (.stringF none))
      (.vdict [("the.title", .vstr "test")]) = true := by
  refine ⟨fun es => by simp [validateField], ?_, ?_, ?_, ?_, ?_, ?_, ?_⟩ <;> decide

/-- Claim C4: list-kind and set-kind fields reject a bare string outright,
and on a non-string iterable (list or set) they succeed exactly when every
element passes the declared element field; in particular the
`test_list_validation` scenarios: the bare string assignment fails, a list
of ints against a string element field fails, a list of strings passes. -/
theorem claim_c4_list_set_validation :
    (∀ e s, validateField (.listF e) (.vstr s) = false ∧
            validateField (.setF e) (.vstr s) = false) ∧
    (∀ e xs, validateField (.listF e) (.vlist xs) = xs.all (fun x => validateField e x) ∧
             validateField (.listF e) (.vset xs) = xs.all (fun x => validateField e x) ∧
             validateField (.setF e) (.vlist xs) = xs.all (fun x => validateField e x) ∧
             validateField (.setF e) (.vset xs) = xs.all (fun x => validateField e x)) ∧
    validateField (.listF (.stringF none)) (.vstr "fun") = false ∧
    validateField (.listF (.stringF none)) (.vlist [.vint 1, .vint 2]) = false ∧
    validateField (.listF (.stringF none)) (.vlist [.vstr "fun", .vstr "leisure"]) = true := by
  refine ⟨fun e s => by simp [validateField], fun e xs => ?_, ?_, ?_, ?_⟩
  · refine ⟨?_, ?_, ?_, ?_⟩ <;> simp [validateField]
  all_goals decide

/-- Claim C5: an int or float field with declared bounds validates a value
exactly when the value is of its own numeric kind and lies in the inclusive
range; a string value (numeric-looking or not) always fails for both
kinds. -/
theorem claim_c5_numeric_range (a b : Int) (c e : Rat) (v : Value) :
    (validateField (.intF (some a) (some b)) v = true ↔
       ∃ n, v = .vint n ∧ a ≤ n ∧ n ≤ b) ∧
    (validateField (.floatF (some c) (some e)) v = true ↔
       ∃ q, v = .vfloat q ∧ c ≤ q ∧ q ≤ e) ∧
    (∀ s, validateField (.intF (some a) (some b)) (.vstr s) = false ∧
          validateField (.floatF (some c) (some e)) (.vstr s) = false) := by
  refine ⟨?_, ?_, fun s => by simp [validateField]⟩
  · cases v <;> simp [validateField, intInRange]
  · cases v <;> simp [validateField, ratInRange]

/-- Claim C6: a decimal field accepts a numeric string exactly when it
parses to an exact decimal inside the declared range (so `'2.0'` with bounds
`[0.1, 3.5]` passes), enforces the range on in-kind decimal values
(`1.89` passes, `0.01` and `4.0` fail), while int and float fields reject
every string value outright. -/
theorem claim_c6_decimal_strings (a b : Rat) :
    (∀ s : String,
       validateField (.decimalF (some a) (some b)) (.vstr s) = true ↔
         ∃ q, parseDec s.toList = some q ∧ a ≤ q ∧ q ≤ b) ∧
    (∀ q : Rat, validateField (.decimalF (some a) (some b)) (.vdec q) =
       (decide (a ≤ q) && decide (q ≤ b))) ∧
    parseDec "2.0".toList = some 2 ∧
    validateField (.decimalF (some (1/10)) (some (7/2))) (.vstr "2.0") = true ∧
    validateField (.decimalF (some (1/10)) (some (7/2))) (.vdec (189/100)) = true ∧
    validateField (.decimalF (some (1/10)) (some (7/2))) (.vdec (1/100)) = false ∧
    validateField (.decimalF (some (1/10)) (some (7/2))) (.vdec 4) = false ∧
    (∀ (mi ma : Option Int) (mf mg : Option Rat) (s : String),
       validateField (.intF mi ma) (.vstr s) = false ∧
       validateField (.floatF mf mg) (.vstr s) = false) := by
  refine ⟨fun s => ?_, fun q => by simp [validateField, toDec, ratInRange],
          ?_, ?_, ?_, ?_, ?_, fun mi ma mf mg s => by simp [validateField]⟩
  · cases hp : parseDec s.data <;> simp [validateField, toDec, ratInRange, hp]
  all_goals
    simp +decide [validateField, toDec, parseDec, digitsVal, ratInRange,
      String.toList, List.takeWhile, List.dropWhile]
  all_goals norm_num

/-- Claim C7: language-code validation accepts each of the documented
examples and rejects the doubled hyphen separator and the all-punctuation
code (`test_language_validation`). -/
theorem claim_c7_language_codes :
    validateField .langF (.vstr "en") = true ∧
    validateField .langF (.vstr "en-US") = true ∧
    validateField .langF (.vstr "en-US-x-fandom") = true ∧
    validateField .langF (.vstr "es-419") = true ∧
    validateField .langF (.vstr "en--us") = false ∧
    validateField .langF (.vstr "??") = false := by decide

/-- Claim C8: running `validate()` hands the instance back unchanged, and
running it again on the handed-back instance reproduces the same outcome
(the same aggregate of failing fields) and the same instance. -/
theorem claim_c8_validate_idempotent (schema : Schema) (d : DocInst) :
    (validateRun schema d).2 = d ∧
    validateRun schema (validateRun schema d).2 = validateRun schema d :=
  ⟨rfl, rfl⟩

/-- Claim C2: a document whose reference-typed field holds a never-saved
instance (no primary key) fails `save()` with a validation error naming that
field, the store left untouched; once the referenced instance carries a
primary key (has been saved) and the document validates cleanly, `save()`
succeeds. -/
theorem claim_c2_reference_save_order (schema : Schema) (fname tcls : String)
    (fsp : FieldSpec) (tdata : List (String × Value)) (d : DocInst) (st : Store)
    (hmem : (fname, fsp) ∈ schema) (hf : fsp.field = .refF tcls)
    (hval : findVal d.fields fname = some (.vdoc tcls none tdata)) :
    (∃ errs, save schema d st = .fail errs st ∧ fname ∈ errs) ∧
    (∀ p : Nat,
      collectErrors schema (setVal d.fields fname (.vdoc tcls (some p) tdata)) = [] →
      ∃ d' st',
        save schema { d with fields := setVal d.fields fname (.vdoc tcls (some p) tdata) } st
          = .ok d' st') := by
  have hbad : validateField fsp.field (.vdoc tcls none tdata) = false := by
    rw [hf]; simp [validateField]
  have hm : fname ∈ collectErrors schema d.fields :=
    mem_collectErrors_of_invalid schema d.fields fname fsp _ hmem hval
      (by intro h; cases h) hbad
  constructor
  · refine ⟨collectErrors schema d.fields, ?_, hm⟩
    have hne : (collectErrors schema d.fields).isEmpty = false := by
      cases hc : collectErrors schema d.fields with
      | nil => rw [hc] at hm; cases hm
      | cons a t => rfl
    simp [save, hne]
  · intro p hok
    obtain ⟨dcls, dpk, dfields⟩ := d
    have hok2 : collectErrors schema
        (setVal dfields fname (Value.vdoc tcls (some p) tdata)) = [] := hok
    cases dpk with
    | none =>
      refine ⟨⟨dcls, some st.nextPk, setVal dfields fname (.vdoc tcls (some p) tdata)⟩,
        upsertRec { st with nextPk := st.nextPk + 1 }
          ⟨collectionOf dcls, st.nextPk,
           serializeFields (setVal dfields fname (.vdoc tcls (some p) tdata))⟩, ?_⟩
      simp only [save]
      rw [hok2]
      rfl
    | some p0 =>
      refine ⟨⟨dcls, some p0, setVal dfields fname (.vdoc tcls (some p) tdata)⟩,
        upsertRec st
          ⟨collectionOf dcls, p0,
           serializeFields (setVal dfields fname (.vdoc tcls (some p) tdata))⟩, ?_⟩
      simp only [save]
      rw [hok2]
      rfl

/-- Claim C2 witness: the `test_reference_validation` scenario.  Saving
`post1` while its author is the unsaved `User` fails with the store
untouched and the aggregate names `author`; after the author is saved
(primary key 0), saving `post1` succeeds. -/
theorem claim_c2_witness :
    (∃ errs, save exPostSchema exPostU exStore0 = .fail errs exStore0 ∧ "author" ∈ errs) ∧
    (∃ d' st', save exPostSchema exPostS exStore0 = .ok d' st') :=
  ⟨(claim_c2_reference_save_order exPostSchema "author" "User"
      ⟨.refF "User", false⟩ exUserData exPostU exStore0
      (by decide) rfl rfl).1,
   (claim_c2_reference_save_order exPostSchema "author" "User"
      ⟨.refF "User", false⟩ exUserData exPostU exStore0
      (by decide) rfl rfl).2 0 rfl⟩

/-- Claim C3: after saving a document whose generic-reference field points at
a persisted instance of registered class `tcls`, fetching the saved record
finds the stored discriminated reference triple, and dereferencing it
dispatches on the discriminator: the result is a document instance whose
class is exactly `tcls`, populated from the fetched target record. -/
theorem claim_c3_generic_reference_dispatch (reg : Registry)
    (tsch schemaB : Schema) (bm bm' : DocInst) (st st' : Store)
    (fname tcls : String) (p : Nat) (tdata : List (String × Value))
    (trec : StoreRec)
    (hreg : findSchema reg tcls = some tsch)
    (hval : findVal bm.fields fname = some (.vdoc tcls (some p) tdata))
    (hsave : save schemaB bm st = .ok bm' st')
    (hcoll : collectionOf bm.cls ≠ collectionOf tcls)
    (htrec : fetchRec st (collectionOf tcls) p = some trec) :
    ∃ p' r, bm'.pk = some p' ∧
      fetchRec st' (collectionOf bm'.cls) p' = some r ∧
      findVal r.fields fname = some (.vgenref (collectionOf tcls) tcls p) ∧
      deref reg st' (.vgenref (collectionOf tcls) tcls p) =
        some ⟨tcls, some p, trec.fields⟩ := by
  have hb : (collectionOf bm.cls == collectionOf tcls) = false :=
    beq_eq_false_iff_ne.mpr hcoll
  cases hpk : bm.pk with
  | none =>
    simp only [save, hpk] at hsave
    cases hif : (collectErrors schemaB bm.fields).isEmpty
    · simp [hif] at hsave
    · simp [hif] at hsave
      obtain ⟨h1, h2⟩ := hsave
      subst h1
      subst h2
      refine ⟨st.nextPk,
        ⟨collectionOf bm.cls, st.nextPk, serializeFields bm.fields⟩, rfl, ?_, ?_, ?_⟩
      · simp [fetchRec, upsertRec, List.find?]
      · rw [findVal_serializeFields, hval]
        simp [serializeValue]
      · simp only [deref, hreg]
        have hfe : fetchRec (upsertRec { st with nextPk := st.nextPk + 1 }
              ⟨collectionOf bm.cls, st.nextPk, serializeFields bm.fields⟩)
              (collectionOf tcls) p = fetchRec st (collectionOf tcls) p := by
          simp [fetchRec, upsertRec, List.find?, hb]
        rw [hfe, htrec]
        rfl
  | some p0 =>
    simp only [save, hpk] at hsave
    cases hif : (collectErrors schemaB bm.fields).isEmpty
    · simp [hif] at hsave
    · simp [hif] at hsave
      obtain ⟨h1, h2⟩ := hsave
      subst h1
      subst h2
      refine ⟨p0,
        ⟨collectionOf bm.cls, p0, serializeFields bm.fields⟩, rfl, ?_, ?_, ?_⟩
      · simp [fetchRec, upsertRec, List.find?]
      · rw [findVal_serializeFields, hval]
        simp [serializeValue]
      · simp only [deref, hreg]
        have hfe : fetchRec (upsertRec st
              ⟨collectionOf bm.cls, p0, serializeFields bm.fields⟩)
              (collectionOf tcls) p = fetchRec st (collectionOf tcls) p := by
          simp [fetchRec, upsertRec, List.find?, hb]
        rw [hfe, htrec]
        rfl

/-- Claim C3 witness: the `test_generic_reference` scenario, run for two
different target types successively.  Saving the bookmark pointed at the
saved `Post` and dereferencing the fetched record yields an instance of
class `Post`; re-pointing the same bookmark at the saved `Link`, saving and
dereferencing yields an instance of class `Link`. -/
theorem claim_c3_witness :
    (∃ p' r, exBm1.pk = some p' ∧
      fetchRec exStPLB (collectionOf exBm1.cls) p' = some r ∧
      findVal r.fields "bookmark_object" = some (.vgenref (collectionOf "Post") "Post" 0) ∧
      deref exReg exStPLB (.vgenref (collectionOf "Post") "Post" 0) =
        some ⟨"Post", some 0, [("title", .vstr "Reunion")]⟩) ∧
    (∃ p' r, exBm2.pk = some p' ∧
      fetchRec exStPLB2 (collectionOf exBm2.cls) p' = some r ∧
      findVal r.fields "bookmark_object" = some (.vgenref (collectionOf "Link") "Link" 1) ∧
      deref exReg exStPLB2 (.vgenref (collectionOf "Link") "Link" 1) =
        some ⟨"Link", some 1, [("title", .vstr "Pitchfork")]⟩) :=
  ⟨claim_c3_generic_reference_dispatch exReg exPostSchema2 exBmSchema
      exBm exBm1 exStPL exStPLB "bookmark_object" "Post" 0
      [("title", .vstr "Reunion")] ⟨"Post", 0, [("title", .vstr "Reunion")]⟩
      rfl rfl rfl (by decide) rfl,
   claim_c3_generic_reference_dispatch exReg exLinkSchema exBmSchema
      exBm2 exBm2 exStPLB exStPLB2 "bookmark_object" "Link" 1
      [("title", .vstr "Pitchfork")] ⟨"Link", 1, [("title", .vstr "Pitchfork")]⟩
      rfl rfl rfl (by decide) rfl⟩

/-- Claim C9: `TransformDjango` round-trips Django models stored as dict
values.  `transform_incoming` replaces a model value by the tagged
`app`/`model`/`pk` record of a model `m1` with its primary key set (the model
is saved first exactly when its `pk` is falsy, and is passed through
unchanged otherwise); `transform_outgoing` maps the tagged record back to
the model instance fetched by that app, model name and primary key, which
therefore carries the same primary key. -/
theorem claim_c9_django_roundtrip (st : DjState) (k : String) (m : DjModel)
    (h : pkFalsy m.pk = true ∨ m ∈ st.store) :
    ∃ st1 m1 m2,
      transformIncoming st (.dict [(k, .dmodel m)]) =
        some (st1, .dict [(k, djRecord m1)]) ∧
      m1.pk.isSome = true ∧ m1.app = m.app ∧ m1.modelCls = m.modelCls ∧
      (pkFalsy m.pk = false → m1 = m) ∧
      transformOutgoing st1 (.dict [(k, djRecord m1)]) =
        some (.dict [(k, .dmodel m2)]) ∧
      m2.pk = m1.pk ∧ m2.app = m1.app ∧ m2.modelCls = m1.modelCls := by
  cases hpf : pkFalsy m.pk with
  | true =>
    cases hpk : m.pk with
    | none =>
      refine ⟨⟨{ m with pk := some st.nextPk } :: st.store, st.nextPk + 1⟩,
        { m with pk := some st.nextPk }, { m with pk := some st.nextPk },
        ?_, rfl, rfl, rfl, fun hcon => absurd hcon (by decide), ?_, rfl, rfl, rfl⟩
      · simp [transformIncoming, tiEntries, tiValue, encodeDjango, djangoSave,
          pkFalsy, hpk]
      · simp +decide [transformOutgoing, toEntries, toValue, djRecord, findSon,
          decodeDjango, findDj, List.find?]
    | some p =>
      rw [hpk] at hpf
      refine ⟨⟨m :: st.store, st.nextPk⟩, m, m,
        ?_, ?_, rfl, rfl, fun _ => rfl, ?_, rfl, rfl, rfl⟩
      · simp [transformIncoming, tiEntries, tiValue, encodeDjango, djangoSave,
          hpf, hpk]
      · rw [hpk]; rfl
      · simp +decide [transformOutgoing, toEntries, toValue, djRecord, findSon,
          decodeDjango, hpk, findDj, List.find?]
  | false =>
    have hmem : m ∈ st.store := h.resolve_left (by simp [hpf])
    cases hpk : m.pk with
    | none => rw [hpk] at hpf; exact absurd hpf (by decide)
    | some p =>
      rw [hpk] at hpf
      have hpred : (m.app == m.app && m.modelCls == m.modelCls && m.pk == some p) = true := by
        simp [hpk]
      have hsome : (st.store.find?
          (fun x => x.app == m.app && x.modelCls == m.modelCls && x.pk == some p)).isSome := by
        rw [List.find?_isSome]
        exact ⟨m, hmem, hpred⟩
      obtain ⟨y, hy⟩ := Option.isSome_iff_exists.mp hsome
      have hyp := List.find?_some hy
      simp only [Bool.and_eq_true, beq_iff_eq] at hyp
      obtain ⟨⟨hya, hyc⟩, hypk⟩ := hyp
      refine ⟨st, m, y, ?_, ?_, rfl, rfl, fun _ => rfl, ?_, ?_, hya, hyc⟩
      · simp [transformIncoming, tiEntries, tiValue, encodeDjango, hpf, hpk]
      · rw [hpk]; rfl
      · simp +decide [transformOutgoing, toEntries, toValue, djRecord, findSon,
          decodeDjango, hpk, findDj, hy]
      · rw [hypk, hpk]

/-- Claim C9 witness: a store holding one saved author model with primary
key 1; encoding the model inside a one-entry dict and decoding the result
restores a model with the same app label, model name and primary key. -/
theorem claim_c9_witness :
    ∃ st1 m1 m2,
      transformIncoming exDjState (.dict [("fan", .dmodel exDjModel)]) =
        some (st1, .dict [("fan", djRecord m1)]) ∧
      m1.pk.isSome = true ∧ m1.app = exDjModel.app ∧ m1.modelCls = exDjModel.modelCls ∧
      (pkFalsy exDjModel.pk = false → m1 = exDjModel) ∧
      transformOutgoing st1 (.dict [("fan", djRecord m1)]) =
        some (.dict [("fan", .dmodel m2)]) ∧
      m2.pk = m1.pk ∧ m2.app = m1.app ∧ m2.modelCls = m1.modelCls :=
  claim_c9_django_roundtrip exDjState "fan" exDjModel (Or.inr (by decide))

/-- Claim C10: when no database name was ever configured (and hence no
handle cached), `_get_db()` raises a `ConnectionError` rather than returning
a handle; and `_get_connection()` constructs the driver connection at most
once: a call that returns connection `c` caches it, and calling again on the
resulting state returns the very same connection object with the state
untouched. -/
theorem claim_c10_connection_caching (s : ConnState) :
    (s.dbName = none → s.db = none → ∃ e, getDb s = .error e) ∧
    (∀ c s1, getConnection s = .ok (c, s1) →
      getConnection s1 = .ok (c, s1) ∧ s1.connection = some c) := by
  constructor
  · intro hn hd
    cases hc : s.connection with
    | some c0 => exact ⟨.notConnected, by simp [getDb, getConnection, hc, hd, hn]⟩
    | none =>
      cases hup : s.driverUp
      · exact ⟨.cannotConnect, by simp [getDb, getConnection, hc, hup]⟩
      · exact ⟨.notConnected, by simp [getDb, getConnection, hc, hup, hd, hn]⟩
  · intro c s1 hok
    cases hc : s.connection with
    | some c0 =>
      simp only [getConnection, hc, Except.ok.injEq, Prod.mk.injEq] at hok
      obtain ⟨h1, h2⟩ := hok
      subst h1
      subst h2
      exact ⟨by simp [getConnection, hc], hc⟩
    | none =>
      cases hup : s.driverUp
      · simp [getConnection, hc, hup] at hok
      · simp only [getConnection, hc, hup, if_true, Except.ok.injEq, Prod.mk.injEq] at hok
        obtain ⟨h1, h2⟩ := hok
        subst h1
        subst h2
        exact ⟨by simp [getConnection], rfl⟩

/-- Claim C10 witness: the initial module state (no `connect()` call ever
made, default settings).  `_get_db()` errors there, and the connection
constructed by the first `_get_connection()` call is returned unchanged by a
second call. -/
theorem claim_c10_witness :
    (∃ e, getDb exConnState0 = .error e) ∧
    (getConnection exConnState1 = .ok (exConn, exConnState1) ∧
      exConnState1.connection = some exConn) :=
  ⟨(claim_c10_connection_caching exConnState0).1 rfl rfl,
   (claim_c10_connection_caching exConnState0).2 exConn exConnState1 rfl⟩

end Mongoengine
